import Mathlib

/-
Shallow embedding of the SQL parser in `src/src/SQLParser.ts` (the first,
canonical implementation in that file, lines 1-454): the lexer `tokenize`
and the recursive-descent parser (`parse`, `parseSelect`, `parseUpdate`,
`parseDelete`, `parseCreateTable`, `parseExpression` and their loops).

JavaScript specifics that the embedding reproduces:
 * the token-splitting regex is a single ordered alternation tried at every
   scan position (first alternative that matches wins; positions where no
   alternative matches are skipped);
 * `eat(kind)` returns the current token and advances exactly when the kind
   matches, otherwise returns null without advancing;
 * reading `currentToken().type` when the cursor is past the end of the
   token array is a TypeError (modelled as an `Except.error`);
 * thrown `Error`s are modelled as `Except.error` with the source's message.
-/

set_option maxRecDepth 10000
set_option maxHeartbeats 2000000

namespace SQLParser

inductive TokenType where
  | KEYWORD | SUBQUERY | IDENTIFIER | STRING | NUMBER | OPERATOR | PAREN | COMMA | SEMICOLON
deriving DecidableEq, Repr

structure Token where
  type : TokenType
  value : String
deriving DecidableEq, Repr

/-- A JavaScript primitive value as produced by the parser's value helpers:
`parseIdentifier`/`parseString` produce strings, `parseNumber` produces a
number, and a failed `??` chain produces `null`. -/
inductive Prim where
  | null
  | str (s : String)
  | num (n : Int)
deriving DecidableEq, Repr

/-! ### Character helpers (JS regex character classes, ASCII case folding) -/

/-- JS `\s` restricted to the whitespace characters that can occur here. -/
def jsIsSpace (c : Char) : Bool :=
  c = ' ' || c = '\t' || c = '\n' || c = '\r'

/-- JS `\w`: ASCII letters, digits and underscore. -/
def isWordChar (c : Char) : Bool :=
  c.isAlpha || c.isDigit || c = '_'

/-- JS `.` (no `s` flag): any character except line terminators. -/
def isDotChar (c : Char) : Bool :=
  c ≠ '\n' && c ≠ '\r'

def asciiLowerChar (c : Char) : Char :=
  if 'A' ≤ c && c ≤ 'Z' then Char.ofNat (c.toNat + 32) else c

def asciiUpperChar (c : Char) : Char :=
  if 'a' ≤ c && c ≤ 'z' then Char.ofNat (c.toNat - 32) else c

/-- `String.prototype.toLowerCase` on the ASCII strings this parser handles. -/
def asciiLower (s : String) : String :=
  String.mk (s.toList.map asciiLowerChar)

/-- `String.prototype.toUpperCase` on the ASCII strings this parser handles. -/
def asciiUpper (s : String) : String :=
  String.mk (s.toList.map asciiUpperChar)

/-- Case-insensitive: the first list is a prefix of the second. -/
def ciStarts : List Char → List Char → Bool
  | [], _ => true
  | _ :: _, [] => false
  | k :: ks, c :: cs => asciiLowerChar k = asciiLowerChar c && ciStarts ks cs

/-- `value.slice(1, -1)`: drop the first and last character. -/
def strSlice (s : String) : String :=
  String.mk ((s.toList.drop 1).dropLast)

/-- `parseInt(value, 10)` on the digit-only strings of NUMBER tokens. -/
def jsParseInt (s : String) : Int :=
  (s.toList.foldl (fun a c => a * 10 + (c.toNat - 48)) 0 : Nat)

/-! ### The lexer

`tokenize` (SQLParser.ts lines 86-120) runs one big regex with flags `gi`
in an `exec` loop.  The regex is an ordered alternation

  `\s*(?<operator>=|<=|>=|==|!=|<>|>|<|=|IN|[*<>])`
  `|(?<subquery>\(SELECT.*?FROM.*?\))|(?<semicolon>;)|(?<paren>[(|)])`
  `|(?<comma>,)|(?<keyword>\b(?:SELECT|...|EXISTS)\b)`
  `|(?<doubleQuotedString>".*?")|(?<singleQuotedString>'.*?')`
  `|(?<number>\d+)|(?<identifier>\w+)\s*`

`exec` scans forward: at each position it tries the alternatives in order
and the first one that matches wins; if none matches the position is
skipped.  Exactly one named group is set per match, so the if/else chain in
the source that dispatches on the groups is equivalent to dispatching on
the matched alternative (the quoted-string alternatives are recognized in
the source by the test `/^['"].*['"]$/` on the trimmed match, which
accepts exactly the two quoted-string alternatives' matches).
-/

/-- Alternative 1 body, after the `\s*` prefix: the ordered operator
alternation `=|<=|>=|==|!=|<>|>|<|=|IN|[*<>]` (case-insensitive).  `=` is
tried before `==`, so `==` can never match as a two-character operator;
`IN` has no word boundary, so it also matches inside words such as `INT`.
Returns the matched text (original casing) and the rest. -/
def tryOperator : List Char → Option (String × List Char)
  | [] => none
  | c :: cs =>
    if c = '=' then some ("=", cs)
    else if c = '<' then
      match cs with
      | '=' :: r => some ("<=", r)
      | '>' :: r => some ("<>", r)
      | _ => some ("<", cs)
    else if c = '>' then
      match cs with
      | '=' :: r => some (">=", r)
      | _ => some (">", cs)
    else if c = '!' then
      match cs with
      | '=' :: r => some ("!=", r)
      | _ => none
    else if c = 'i' || c = 'I' then
      match cs with
      | c2 :: r => if c2 = 'n' || c2 = 'N' then some (String.mk [c, c2], r) else none
      | [] => none
    else if c = '*' then some ("*", cs)
    else none

/-- Lazy scan for `.*?KW`: consume the shortest run of `.`-matchable
characters until the (case-insensitive) literal `kw` matches; returns the
consumed characters (including the `kw` occurrence, original casing) and
the rest. -/
def scanLazy (kw : List Char) : List Char → Option (List Char × List Char)
  | [] => if ciStarts kw [] then some ([], []) else none
  | c :: cs =>
    if ciStarts kw (c :: cs) then
      some ((c :: cs).take kw.length, (c :: cs).drop kw.length)
    else if isDotChar c then
      match scanLazy kw cs with
      | some (p, r) => some (c :: p, r)
      | none => none
    else none

/-- Alternative 2: `\(SELECT.*?FROM.*?\)` (case-insensitive, lazy).
Returns the full matched text (parentheses included) and the rest. -/
def trySubquery : List Char → Option (String × List Char)
  | '(' :: rest =>
    if ciStarts "SELECT".toList rest then
      match scanLazy "FROM".toList (rest.drop 6) with
      | some (p1, r1) =>
        match scanLazy [')'] r1 with
        | some (p2, r2) =>
          some (String.mk ('(' :: rest.take 6 ++ p1 ++ p2), r2)
        | none => none
      | none => none
    else none
  | _ => none

/-- The keyword set of the `keyword` alternative, in the regex's order. -/
def kwList : List String :=
  ["SELECT", "UPDATE", "DELETE", "CREATE", "TABLE", "FROM", "WHERE", "SET",
   "VALUES", "INSERT", "INTO", "AND", "OR", "NOT", "NULL", "PRIMARY", "KEY",
   "VARCHAR", "INT", "CHAR", "IF", "EXISTS"]

/-- `\b` holds after the keyword: next character absent or not a word char. -/
def boundaryAfter : List Char → Bool
  | [] => true
  | c :: _ => !isWordChar c

/-- Try the keyword alternatives in order at the current position. -/
def tryKeywordGo (cs : List Char) : List String → Option (String × List Char)
  | [] => none
  | k :: ks =>
    let n := k.toList.length
    if ciStarts k.toList cs && boundaryAfter (cs.drop n) then some (k, cs.drop n)
    else tryKeywordGo cs ks

/-- Alternative 6: `\b(?:SELECT|...|EXISTS)\b`, case-insensitive.  The
leading `\b` needs the previous character to be absent or not a word char
(every keyword starts with a word char).  The returned string is the
keyword from the list, which equals the source's
`match.groups.keyword.toUpperCase()`. -/
def tryKeyword (prev : Option Char) (cs : List Char) : Option (String × List Char) :=
  if (prev.map isWordChar).getD false then none
  else tryKeywordGo cs kwList

/-- Alternatives 7/8: `".*?"` and `'.*?'` (lazy, `.` excludes newlines).
The token text keeps both quotes. -/
def tryQuoted (q : Char) : List Char → Option (String × List Char)
  | c :: rest =>
    if c = q then
      match scanLazy [q] rest with
      | some (p, r) => some (String.mk (q :: p), r)
      | none => none
    else none
  | [] => none

/-- One attempt of the whole alternation at the current scan position.
`prev` is the character just before the position (for `\b`).  Returns the
emitted token, the character preceding the new scan position, and the rest
of the input.  `none` means no alternative matches here and `exec` moves
one character forward. -/
def tryMatch (prev : Option Char) (cs : List Char) : Option (Token × Option Char × List Char) :=
  -- (1) `\s*(?<operator>...)`: greedy whitespace, then the operator.
  match tryOperator (cs.dropWhile jsIsSpace) with
  | some (op, rest) => some (⟨.OPERATOR, op⟩, op.toList.getLast?, rest)
  | none =>
  -- (2) `(?<subquery>\(SELECT.*?FROM.*?\))`
  match trySubquery cs with
  | some (v, rest) => some (⟨.SUBQUERY, v⟩, some ')', rest)
  | none =>
  -- (3) `;`  (4) `[(|)]`  (5) `,`
  match cs with
  | ';' :: r => some (⟨.SEMICOLON, ";"⟩, some ';', r)
  | '(' :: r => some (⟨.PAREN, "("⟩, some '(', r)
  | '|' :: r => some (⟨.PAREN, "|"⟩, some '|', r)
  | ')' :: r => some (⟨.PAREN, ")"⟩, some ')', r)
  | ',' :: r => some (⟨.COMMA, ","⟩, some ',', r)
  | _ =>
  -- (6) keywords
  match tryKeyword prev cs with
  | some (kw, rest) => some (⟨.KEYWORD, kw⟩, kw.toList.getLast?, rest)
  | none =>
  -- (7) double-quoted string
  match tryQuoted '"' cs with
  | some (v, rest) => some (⟨.STRING, v⟩, some '"', rest)
  | none =>
  -- (8) single-quoted string
  match tryQuoted '\'' cs with
  | some (v, rest) => some (⟨.STRING, v⟩, some '\'', rest)
  | none =>
  -- (9) `\d+` then (10) `\w+\s*` (trailing `\s*` only moves the cursor over
  -- whitespace, which the scan skips anyway, so it is dropped here; the
  -- source stores `value.trim()`, i.e. exactly the `\w+` part).
  match cs with
  | c :: _ =>
    if c.isDigit then
      some (⟨.NUMBER, String.mk (cs.takeWhile Char.isDigit)⟩,
            (cs.takeWhile Char.isDigit).getLast?, cs.dropWhile Char.isDigit)
    else if isWordChar c then
      some (⟨.IDENTIFIER, String.mk (cs.takeWhile isWordChar)⟩,
            (cs.takeWhile isWordChar).getLast?, cs.dropWhile isWordChar)
    else none
  | [] => none

/-- The `exec` scan loop.  Every successful match consumes at least one
character and unmatched positions are skipped one character at a time, so
`cs.length` steps always suffice; `fuel` is initialized accordingly. -/
def tokenizeAux : Nat → Option Char → List Char → List Token
  | 0, _, _ => []
  | _ + 1, _, [] => []
  | fuel + 1, prev, c :: rest =>
    match tryMatch prev (c :: rest) with
    | some (tok, newPrev, rest') => tok :: tokenizeAux fuel newPrev rest'
    | none => tokenizeAux fuel (some c) rest

/-- `tokenize(sql)` (SQLParser.ts lines 86-120). -/
def tokenize (sql : String) : List Token :=
  tokenizeAux sql.length none sql.toList

/-! ### The abstract syntax produced by the parser

The four statement parsers return four different object shapes (the
`ParseInterface` of the source is a loose union of them), so `Stmt` is a
tagged variant with one constructor per statement parser, mirroring each
returned object literal field by field.  `table` is nullable
(`parseIdentifier` can return null), hence `Option String`. -/

/-- A `{name, dataType}` column entry of `parseCreateTable`; both fields
come from `parseIdentifier` and can be null. -/
structure ColDef where
  name : Option String
  dataType : Option String
deriving DecidableEq, Repr

mutual

/-- The `right` field of a condition: a primitive (including `null` from a
failed `??` chain), the de-duplicated IN-list, or the list holding a parsed
subquery statement. -/
inductive RHS where
  | prim (p : Prim)
  | vals (vs : List Prim)
  | stmts (ss : List Stmt)

/-- A `{left, operator, right}` condition as returned by `parseExpression`
(which throws when `left` or `operator` is null, so both are strings). -/
inductive Cond where
  | mk (left : String) (operator : String) (right : RHS)

/-- An `{operator: "and"/"or", condition: [...]}` group pushed by
`parseSelect`'s WHERE handling. -/
inductive CondGroup where
  | mk (operator : String) (condition : List Cond)

/-- The objects returned by `parseSelect` / `parseUpdate` / `parseDelete` /
`parseCreateTable` (in that order). Note the differing `where` shapes:
SELECT groups conditions into `CondGroup`s, UPDATE keeps a flat condition
list, DELETE holds at most one condition. -/
inductive Stmt where
  | select (columns : List String) (table : Option String) (whereGroups : List CondGroup)
  | update (table : Option String) (set : List (String × Prim)) (whereConds : List Cond)
  | delete (table : Option String) (whereCond : Option Cond)
  | createTable (table : Option String) (columns : List ColDef)

end

/-! ### Cursor primitives (SQLParser.ts lines 82-184)

The parser state is the token array plus a monotone cursor; the embedding
passes the remaining-token suffix instead.  JS `tokens[current]` past the
end is `undefined`, and reading `.type` on it throws a TypeError; sites
that do so unguarded map to `Except.error typeErrorMsg`. -/

def typeErrorMsg : String := "TypeError: cannot read properties of undefined"

def fuelMsg : String := "out of fuel"

/-- `currentToken()`: the token under the cursor, if any. -/
def currentToken (ts : List Token) : Option Token := ts.head?

/-- `eat(type)`: advance past and return the current token iff its type
matches; otherwise return null and stay put. -/
def eat (ty : TokenType) (ts : List Token) : Option Token × List Token :=
  match ts with
  | [] => (none, [])
  | t :: r => if t.type = ty then (some t, r) else (none, ts)

/-- `parseIdentifier()`: token text of an IDENTIFIER, or null. -/
def parseIdentifier (ts : List Token) : Option String × List Token :=
  match eat .IDENTIFIER ts with
  | (some t, r) => (some t.value, r)
  | (none, r) => (none, r)

/-- `parseNumber()`: `parseInt(value, 10)` of a NUMBER token, or null. -/
def parseNumber (ts : List Token) : Option Int × List Token :=
  match eat .NUMBER ts with
  | (some t, r) => (some (jsParseInt t.value), r)
  | (none, r) => (none, r)

/-- `parseString()`: STRING token text with the surrounding quotes
removed, or null. -/
def parseString (ts : List Token) : Option String × List Token :=
  match eat .STRING ts with
  | (some t, r) => (some (strSlice t.value), r)
  | (none, r) => (none, r)

/-- `parseOperator()`: token text of an OPERATOR, or null. -/
def parseOperator (ts : List Token) : Option Token × List Token :=
  eat .OPERATOR ts

/-- The `parseIdentifier() ?? parseString() ?? parseNumber()` chain used
for condition right-hand sides and IN-list elements; a fully failed chain
is JS `null`. -/
def parseValueChain (ts : List Token) : Prim × List Token :=
  match parseIdentifier ts with
  | (some v, r) => (.str v, r)
  | (none, _) =>
    match parseString ts with
    | (some v, r) => (.str v, r)
    | (none, _) =>
      match parseNumber ts with
      | (some n, r) => (.num n, r)
      | (none, r) => (.null, r)

/-- The `parseString() ?? parseNumber()` chain of `parseUpdate`'s SET
values. -/
def parseStrNumChain (ts : List Token) : Prim × List Token :=
  match parseString ts with
  | (some v, r) => (.str v, r)
  | (none, _) =>
    match parseNumber ts with
    | (some n, r) => (.num n, r)
    | (none, r) => (.null, r)

/-! ### Expression parsing (SQLParser.ts lines 247-296)

`parseExpression` recurses into a whole new `SQLParser` for subqueries
(`new SQLParser(text.slice(1,-1)).parse()`).  The embedding receives that
re-entry point as the function argument `recSQL`; the knot is tied below in
`parseSQLF`, where a fuel parameter bounds the subquery nesting depth.
Loops over tokens get their own fuel, initialized at each call site to
(remaining tokens + 1), which is always sufficient because every iteration
consumes at least one token. -/

/-- The IN-list collection loop (lines 270-286): while the current token is
an IDENTIFIER/STRING/NUMBER, parse a value, push it unless already present
(`tmp.includes`), and eat a separating comma.  The loop condition reads
`currentToken().type` unguarded, so running out of tokens inside the list
is a TypeError. -/
def inListLoop : Nat → List Token → List Prim → Except String (List Prim × List Token)
  | 0, _, _ => .error fuelMsg
  | fuel + 1, ts, tmp =>
    match currentToken ts with
    | none => .error typeErrorMsg
    | some t =>
      if t.type = .IDENTIFIER || t.type = .STRING || t.type = .NUMBER then
        let (v, ts1) := parseValueChain ts
        let tmp' := if v ∈ tmp then tmp else tmp ++ [v]
        let (_, ts2) := eat .COMMA ts1
        inListLoop fuel ts2 tmp'
      else .ok (tmp, ts)

/-- `parseExpression()` (lines 247-296): parse `left` identifier and
`operator`; throw `Expected identifier` if either is null.  For `IN`:
a SUBQUERY token is re-parsed through `recSQL` on its inner text and
wrapped in a one-element list; otherwise eat `(`, collect the
de-duplicated value list, eat `)`.  For any other operator, the right-hand
side is a single value (possibly null). -/
def parseExpression (recSQL : String → Except String Stmt) (ts : List Token) :
    Except String (Cond × List Token) :=
  let (left, ts1) := parseIdentifier ts
  let (op, ts2) := parseOperator ts1
  match left, op with
  | some l, some o =>
    if asciiUpper o.value = "IN" then
      match currentToken ts2 with
      | none => .error typeErrorMsg
      | some t =>
        if t.type = .SUBQUERY then
          let (_, ts3) := eat .SUBQUERY ts2
          match recSQL (strSlice t.value) with
          | .ok s => .ok (.mk l o.value (.stmts [s]), ts3)
          | .error e => .error e
        else
          let (_, ts3) := eat .PAREN ts2
          match inListLoop (ts3.length + 1) ts3 [] with
          | .ok (vs, ts4) =>
            let (_, ts5) := eat .PAREN ts4
            .ok (.mk l o.value (.vals vs), ts5)
          | .error e => .error e
    else
      let (v, ts3) := parseValueChain ts2
      .ok (.mk l o.value (.prim v), ts3)
  | _, _ => .error "Expected identifier"

/-! ### SELECT (SQLParser.ts lines 298-354) -/

/-- The column list loop (lines 302-306): while the current token is an
IDENTIFIER, push it and continue past a comma, else break.  The loop
condition reads `currentToken().type` unguarded. -/
def selectColumnsLoop : Nat → List Token → List String → Except String (List String × List Token)
  | 0, _, _ => .error fuelMsg
  | fuel + 1, ts, cols =>
    match currentToken ts with
    | none => .error typeErrorMsg
    | some t =>
      if t.type = .IDENTIFIER then
        match eat .IDENTIFIER ts with
        | (some tok, ts1) =>
          match eat .COMMA ts1 with
          | (some _, ts2) => selectColumnsLoop fuel ts2 (cols ++ [tok.value])
          | (none, _) => .ok (cols ++ [tok.value], ts1)
        | (none, _) => .ok (cols, ts)   -- unreachable: head is an IDENTIFIER
      else .ok (cols, ts)

/-- The WHERE loop of `parseSelect` (lines 321-338): while there are tokens
and the current one is not a KEYWORD, parse one condition; then
`eat("KEYWORD")` eats the following keyword if there is one, and the
condition goes into the `or` bucket exactly when that keyword lowercases to
`"or"`, into the `and` bucket in every other case. -/
def selectWhereLoop (pe : List Token → Except String (Cond × List Token)) :
    Nat → List Token → List Cond → List Cond → Except String (List Cond × List Cond × List Token)
  | 0, _, _, _ => .error fuelMsg
  | fuel + 1, ts, andB, orB =>
    match currentToken ts with
    | none => .ok (andB, orB, ts)
    | some t =>
      if t.type = .KEYWORD then .ok (andB, orB, ts)
      else
        match pe ts with
        | .error e => .error e
        | .ok (c, ts1) =>
          match eat .KEYWORD ts1 with
          | (some k, ts2) =>
            if asciiLower k.value = "or" then selectWhereLoop pe fuel ts2 andB (orB ++ [c])
            else selectWhereLoop pe fuel ts2 (andB ++ [c]) orB
          | (none, _) => selectWhereLoop pe fuel ts1 (andB ++ [c]) orB

/-- Lines 339-350: after the loop, push an and-group then an or-group, each
only when its bucket is non-empty. -/
def mkWhere (andB orB : List Cond) : List CondGroup :=
  (if 0 < andB.length then [CondGroup.mk "and" andB] else []) ++
  (if 0 < orB.length then [CondGroup.mk "or" orB] else [])

/-- `parseSelect()` (lines 298-354). -/
def parseSelect (recSQL : String → Except String Stmt) (ts : List Token) :
    Except String Stmt :=
  let (_, ts1) := eat .KEYWORD ts          -- skip SELECT
  match selectColumnsLoop (ts1.length + 1) ts1 [] with
  | .error e => .error e
  | .ok (columns, ts2) =>
    let (_, ts3) := eat .KEYWORD ts2       -- skip FROM
    let (table, ts4) := parseIdentifier ts3
    match currentToken ts4 with
    | some t =>
      if asciiUpper t.value = "WHERE" then
        match eat .KEYWORD ts4 with
        | (some _, ts5) =>
          match selectWhereLoop (parseExpression recSQL) (ts5.length + 1) ts5 [] [] with
          | .ok (andB, orB, _) => .ok (.select columns table (mkWhere andB orB))
          | .error e => .error e
        | (none, _) => .ok (.select columns table [])
      else .ok (.select columns table [])
    | none => .ok (.select columns table [])

/-! ### UPDATE (SQLParser.ts lines 356-394) -/

/-- JS `set[column] = value` on an insertion-ordered object. -/
def setInsert (m : List (String × Prim)) (k : String) (v : Prim) : List (String × Prim) :=
  if m.any (fun p => p.1 = k) then m.map (fun p => if p.1 = k then (k, v) else p)
  else m ++ [(k, v)]

/-- The SET loop (lines 362-373): guarded by `hasMoreToken()`, so no
TypeError here; parse `column`, eat `=`, parse a string-or-number value,
assign, continue past a comma or break. -/
def updateSetLoop : Nat → List Token → List (String × Prim) →
    Except String (List (String × Prim) × List Token)
  | 0, _, _ => .error fuelMsg
  | fuel + 1, ts, set =>
    match currentToken ts with
    | none => .ok (set, ts)
    | some t =>
      if t.type = .IDENTIFIER then
        match eat .IDENTIFIER ts with
        | (some tok, ts1) =>
          let (_, ts2) := eat .OPERATOR ts1   -- skip '='
          let (v, ts3) := parseStrNumChain ts2
          let set' := setInsert set tok.value v
          match eat .COMMA ts3 with
          | (some _, ts4) => updateSetLoop fuel ts4 set'
          | (none, _) => .ok (set', ts3)
        | (none, _) => .ok (set, ts)   -- unreachable: head is an IDENTIFIER
      else .ok (set, ts)

/-- The WHERE loop of `parseUpdate` (lines 378-390): while there are tokens
and the current one is not a KEYWORD, push `parseExpression()` onto the
flat `where` array; a following KEYWORD (if any) is eaten. -/
def updateWhereLoop (pe : List Token → Except String (Cond × List Token)) :
    Nat → List Token → List Cond → Except String (List Cond × List Token)
  | 0, _, _ => .error fuelMsg
  | fuel + 1, ts, wh =>
    match currentToken ts with
    | none => .ok (wh, ts)
    | some t =>
      if t.type = .KEYWORD then .ok (wh, ts)
      else
        match pe ts with
        | .error e => .error e
        | .ok (c, ts1) =>
          let (_, ts2) := eat .KEYWORD ts1
          updateWhereLoop pe fuel ts2 (wh ++ [c])

/-- `parseUpdate()` (lines 356-394).  Note: the WHERE clause is only
entered when `eat("KEYWORD")?.value === "WHERE"`; the eaten keyword is
consumed either way, and the conditions are collected flat (no
and/or grouping). -/
def parseUpdate (recSQL : String → Except String Stmt) (ts : List Token) :
    Except String Stmt :=
  let (_, ts1) := eat .KEYWORD ts           -- skip UPDATE
  let (table, ts2) := parseIdentifier ts1
  let (_, ts3) := eat .KEYWORD ts2          -- skip SET
  match updateSetLoop (ts3.length + 1) ts3 [] with
  | .error e => .error e
  | .ok (set, ts4) =>
    match eat .KEYWORD ts4 with
    | (some k, ts5) =>
      if k.value = "WHERE" then
        match updateWhereLoop (parseExpression recSQL) (ts5.length + 1) ts5 [] with
        | .ok (wh, _) => .ok (.update table set wh)
        | .error e => .error e
      else .ok (.update table set [])
    | (none, _) => .ok (.update table set [])

/-! ### DELETE (SQLParser.ts lines 396-407) -/

/-- `parseDelete()`: eat DELETE and FROM, parse the table, and parse
exactly one condition when the next keyword is WHERE. -/
def parseDelete (recSQL : String → Except String Stmt) (ts : List Token) :
    Except String Stmt :=
  let (_, ts1) := eat .KEYWORD ts           -- skip DELETE
  let (_, ts2) := eat .KEYWORD ts1          -- skip FROM
  let (table, ts3) := parseIdentifier ts2
  match eat .KEYWORD ts3 with
  | (some k, ts4) =>
    if k.value = "WHERE" then
      match parseExpression recSQL ts4 with
      | .ok (c, _) => .ok (.delete table (some c))
      | .error e => .error e
    else .ok (.delete table none)
  | (none, _) => .ok (.delete table none)

/-! ### CREATE TABLE (SQLParser.ts lines 409-427) -/

/-- The column-definition loop (lines 416-423): while the current token is
an IDENTIFIER, parse `name` and `dataType` identifiers (either may come
back null) and continue past a comma.  The loop condition reads
`currentToken().type` unguarded. -/
def createColumnsLoop : Nat → List Token → List ColDef → Except String (List ColDef × List Token)
  | 0, _, _ => .error fuelMsg
  | fuel + 1, ts, cols =>
    match currentToken ts with
    | none => .error typeErrorMsg
    | some t =>
      if t.type = .IDENTIFIER then
        let (nm, ts1) := parseIdentifier ts
        let (dt, ts2) := parseIdentifier ts1
        match eat .COMMA ts2 with
        | (some _, ts3) => createColumnsLoop fuel ts3 (cols ++ [⟨nm, dt⟩])
        | (none, _) => .ok (cols ++ [⟨nm, dt⟩], ts2)
      else .ok (cols, ts)

/-- `parseCreateTable()` (lines 409-427): two KEYWORD eats (the caller
`parse()` has already eaten one KEYWORD before dispatching here), the table
identifier, `(`, the column definitions, `)`. -/
def parseCreateTable (ts : List Token) : Except String Stmt :=
  let (_, ts1) := eat .KEYWORD ts
  let (_, ts2) := eat .KEYWORD ts1
  let (table, ts3) := parseIdentifier ts2
  let (_, ts4) := eat .PAREN ts3
  match createColumnsLoop (ts4.length + 1) ts4 [] with
  | .error e => .error e
  | .ok (columns, _) => .ok (.createTable table columns)

/-! ### Dispatch (SQLParser.ts lines 429-453) -/

/-- `parse()`: reads `currentToken().type` unguarded (TypeError on an empty
token sequence), then dispatches on the uppercased keyword value; the
source's guard `includes(...)` followed by a `switch` over the same four
values is written as one if/else chain.  In the `CREATE` case `parse()`
itself eats one KEYWORD before calling `parseCreateTable`. -/
def parse (recSQL : String → Except String Stmt) (ts : List Token) : Except String Stmt :=
  match currentToken ts with
  | none => .error typeErrorMsg
  | some t =>
    if t.type = .KEYWORD then
      if asciiUpper t.value = "SELECT" then parseSelect recSQL ts
      else if asciiUpper t.value = "UPDATE" then parseUpdate recSQL ts
      else if asciiUpper t.value = "DELETE" then parseDelete recSQL ts
      else if asciiUpper t.value = "CREATE" then parseCreateTable (eat .KEYWORD ts).2
      else .error ("Unexpected token: " ++ t.value)
    else .error ("Unexpected token: " ++ t.value)

/-- `new SQLParser(sql).parse()` with an explicit bound on subquery nesting
depth: the constructor tokenizes, `parse()` runs, and each SUBQUERY token
restarts the pipeline on its inner text one fuel level down. -/
def parseSQLF : Nat → String → Except String Stmt
  | 0, _ => .error fuelMsg
  | fuel + 1, sql => parse (parseSQLF fuel) (tokenize sql)

/-- Top-level entry point.  A subquery's inner text is strictly shorter
than the enclosing statement, so `sql.length + 1` fuel can never run out. -/
def parseSQL (sql : String) : Except String Stmt :=
  parseSQLF (sql.length + 1) sql

/-! ### Declarative companions used to state the claims -/

/-- Declarative reading of the WHERE loop: the sequence of conditions it
parses, each paired with the flag "the token right after this condition is
a KEYWORD whose value lowercases to `or`" (that keyword, like any keyword
found there, is consumed).  Same fuel discipline as `selectWhereLoop`. -/
def condsWithFlags (pe : List Token → Except String (Cond × List Token)) :
    Nat → List Token → Except String (List (Cond × Bool) × List Token)
  | 0, _ => .error fuelMsg
  | fuel + 1, ts =>
    match currentToken ts with
    | none => .ok ([], ts)
    | some t =>
      if t.type = .KEYWORD then .ok ([], ts)
      else
        match pe ts with
        | .error e => .error e
        | .ok (c, ts1) =>
          match eat .KEYWORD ts1 with
          | (some k, ts2) =>
            match condsWithFlags pe fuel ts2 with
            | .ok (st, r) => .ok ((c, asciiLower k.value = "or") :: st, r)
            | .error e => .error e
          | (none, _) =>
            match condsWithFlags pe fuel ts1 with
            | .ok (st, r) => .ok ((c, false) :: st, r)
            | .error e => .error e

/-- The conditions routed to the AND bucket: those not followed by OR. -/
def andOf (st : List (Cond × Bool)) : List Cond :=
  (st.filter (fun p => !p.2)).map Prod.fst

/-- The conditions routed to the OR bucket: those followed by OR. -/
def orOf (st : List (Cond × Bool)) : List Cond :=
  (st.filter (fun p => p.2)).map Prod.fst

/-- The raw value sequence the IN-list loop reads, without the
de-duplication (same traversal, same fuel discipline as `inListLoop`). -/
def rawInList : Nat → List Token → Except String (List Prim × List Token)
  | 0, _ => .error fuelMsg
  | fuel + 1, ts =>
    match currentToken ts with
    | none => .error typeErrorMsg
    | some t =>
      if t.type = .IDENTIFIER || t.type = .STRING || t.type = .NUMBER then
        let (v, ts1) := parseValueChain ts
        let (_, ts2) := eat .COMMA ts1
        match rawInList fuel ts2 with
        | .ok (vs, r) => .ok (v :: vs, r)
        | .error e => .error e
      else .ok ([], ts)

/-- Order-of-first-occurrence de-duplication, relative to already seen
values: keep a value iff it is neither in `seen` nor earlier in the list. -/
def firstOccurrencesFrom (seen : List Prim) : List Prim → List Prim
  | [] => []
  | v :: vs =>
    if v ∈ seen then firstOccurrencesFrom seen vs
    else v :: firstOccurrencesFrom (seen ++ [v]) vs

/-! ### Helper lemmas -/

theorem andOf_cons_true (c : Cond) (st : List (Cond × Bool)) :
    andOf ((c, true) :: st) = andOf st := by
  simp [andOf]

theorem andOf_cons_false (c : Cond) (st : List (Cond × Bool)) :
    andOf ((c, false) :: st) = c :: andOf st := by
  simp [andOf]

theorem orOf_cons_true (c : Cond) (st : List (Cond × Bool)) :
    orOf ((c, true) :: st) = c :: orOf st := by
  simp [orOf]

theorem orOf_cons_false (c : Cond) (st : List (Cond × Bool)) :
    orOf ((c, false) :: st) = orOf st := by
  simp [orOf]

/-- The imperative two-bucket WHERE loop agrees with its declarative
reading: given the parsed conditions with their follows-OR flags, the loop
extends the `and` accumulator with exactly the unflagged conditions and the
`or` accumulator with exactly the flagged ones, in order. -/
theorem selectWhereLoop_eq (pe : List Token → Except String (Cond × List Token)) :
    ∀ (fuel : Nat) (ts : List Token) (andB orB : List Cond)
      (st : List (Cond × Bool)) (r : List Token),
      condsWithFlags pe fuel ts = .ok (st, r) →
      selectWhereLoop pe fuel ts andB orB = .ok (andB ++ andOf st, orB ++ orOf st, r) := by
  intro fuel
  induction fuel with
  | zero => intro ts andB orB st r h; simp [condsWithFlags] at h
  | succ n ih =>
    intro ts andB orB st r h
    match hts : currentToken ts with
    | none =>
      simp [condsWithFlags, hts] at h
      obtain ⟨hst, hr⟩ := h
      subst hst; subst hr
      simp [selectWhereLoop, hts, andOf, orOf]
    | some t =>
      by_cases hk : t.type = .KEYWORD
      · simp [condsWithFlags, hts, hk] at h
        obtain ⟨hst, hr⟩ := h
        subst hst; subst hr
        simp [selectWhereLoop, hts, hk, andOf, orOf]
      · match hpe : pe ts with
        | .error e => simp [condsWithFlags, hts, hk, hpe] at h
        | .ok (c, ts1) =>
          match he : eat .KEYWORD ts1 with
          | (some k, ts2) =>
            match hcf : condsWithFlags pe n ts2 with
            | .error e => simp [condsWithFlags, hts, hk, hpe, he, hcf] at h
            | .ok (st', r') =>
              simp [condsWithFlags, hts, hk, hpe, he, hcf] at h
              obtain ⟨hst, hr⟩ := h
              subst hst; subst hr
              by_cases hor : asciiLower k.value = "or"
              · have hrec := ih ts2 andB (orB ++ [c]) st' r' hcf
                simp [selectWhereLoop, hts, hk, hpe, he, hor, hrec,
                      andOf_cons_true, orOf_cons_true]
              · have hrec := ih ts2 (andB ++ [c]) orB st' r' hcf
                simp [selectWhereLoop, hts, hk, hpe, he, hor, hrec,
                      andOf_cons_false, orOf_cons_false]
          | (none, ts2) =>
            match hcf : condsWithFlags pe n ts1 with
            | .error e => simp [condsWithFlags, hts, hk, hpe, he, hcf] at h
            | .ok (st', r') =>
              simp [condsWithFlags, hts, hk, hpe, he, hcf] at h
              obtain ⟨hst, hr⟩ := h
              subst hst; subst hr
              have hrec := ih ts1 (andB ++ [c]) orB st' r' hcf
              simp [selectWhereLoop, hts, hk, hpe, he, hrec,
                    andOf_cons_false, orOf_cons_false]

/-- The IN-list loop computes the order-of-first-occurrence
de-duplication of the raw value sequence it traverses, relative to the
accumulator it starts from. -/
theorem inListLoop_eq :
    ∀ (fuel : Nat) (ts : List Token) (tmp : List Prim)
      (vs : List Prim) (r : List Token),
      rawInList fuel ts = .ok (vs, r) →
      inListLoop fuel ts tmp = .ok (tmp ++ firstOccurrencesFrom tmp vs, r) := by
  intro fuel
  induction fuel with
  | zero => intro ts tmp vs r h; simp [rawInList] at h
  | succ n ih =>
    intro ts tmp vs r h
    match hts : currentToken ts with
    | none => simp [rawInList, hts] at h
    | some t =>
      by_cases hv : (t.type = .IDENTIFIER || t.type = .STRING || t.type = .NUMBER) = true
      · match hraw : rawInList n (eat .COMMA (parseValueChain ts).2).2 with
        | .error e => simp [rawInList, hts, hv, hraw] at h
        | .ok (vs', r') =>
          simp [rawInList, hts, hv, hraw] at h
          obtain ⟨hvs, hr⟩ := h
          by_cases hmem : (parseValueChain ts).1 ∈ tmp
          · have := ih (eat .COMMA (parseValueChain ts).2).2 tmp vs' r' hraw
            simp [inListLoop, hts, hv, hmem, this, ← hvs, hr, firstOccurrencesFrom]
          · have := ih (eat .COMMA (parseValueChain ts).2).2
              (tmp ++ [(parseValueChain ts).1]) vs' r' hraw
            simp [inListLoop, hts, hv, hmem, this, ← hvs, hr, firstOccurrencesFrom]
      · simp only [Bool.not_eq_true] at hv
        simp [rawInList, hts, hv] at h
        obtain ⟨hvs, hr⟩ := h
        subst hvs; subst hr
        simp [inListLoop, hts, hv, firstOccurrencesFrom]

/-- Each `exec` step emits at most one token, so the scan emits at most
`fuel` tokens. -/
theorem tokenizeAux_length_le :
    ∀ (fuel : Nat) (prev : Option Char) (cs : List Char),
      (tokenizeAux fuel prev cs).length ≤ fuel := by
  intro fuel
  induction fuel with
  | zero => intro prev cs; simp [tokenizeAux]
  | succ n ih =>
    intro prev cs
    match cs with
    | [] => simp [tokenizeAux]
    | c :: rest =>
      match hm : tryMatch prev (c :: rest) with
      | some (tok, newPrev, rest') =>
        simp [tokenizeAux, hm]
        exact ih newPrev rest'
      | none =>
        simp [tokenizeAux, hm]
        exact Nat.le_succ_of_le (ih (some c) rest)

/-! ### Claims -/

/-- C1, counterexample: `parse` on the malformed input `SELECT FROM`
does not raise an error; it succeeds and returns a partial Select
statement whose `table` is null (`columns` empty, no error identifying an
offending token), contradicting the claimed invariant. -/
theorem c1_counterexample :
    parseSQL "SELECT FROM" = .ok (.select [] none []) := rfl

/-- C1, amended: parsing can succeed with a partial Statement.
`SELECT FROM` (no columns, no table identifier) yields
`Select{columns: [], table: null, where: []}`, and a condition with a
dangling operator and no right-hand value (`SELECT a FROM t WHERE a =`)
yields a condition whose `right` is null; neither input raises an error,
so a successful parse does not guarantee a non-null `table`. -/
theorem c1_amended :
    parseSQL "SELECT FROM" = .ok (.select [] none []) ∧
    parseSQL "SELECT a FROM t WHERE a =" =
      .ok (.select ["a"] (some "t") [.mk "and" [.mk "a" "=" (.prim .null)]]) :=
  ⟨rfl, rfl⟩

/-- C2, counterexample: parsing `SELECT * FROM t WHERE a=1 AND b=2 OR c=3`
does not yield two ConditionGroups at all: `*` is lexed as an OPERATOR
token, so the column loop matches nothing, FROM is not eaten, the table
identifier is not found, and the WHERE check fails — the result is
`Select{columns: [], table: null, where: []}`. -/
theorem c2_counterexample :
    parseSQL "SELECT * FROM t WHERE a=1 AND b=2 OR c=3" =
      .ok (.select [] none []) := rfl

/-- C2, amended: with an identifier column list (`*` derails the parse, see
the counterexample), `SELECT x FROM t WHERE a=1 AND b=2 OR c=3` yields
exactly two ConditionGroups, the AND-group first — but a condition is
routed to the OR bucket when the token AFTER it is OR, so the AND-group
holds [a=1, c=3] and the OR-group holds [b=2], not [a=1, b=2] and [c=3]. -/
theorem c2_amended :
    parseSQL "SELECT x FROM t WHERE a=1 AND b=2 OR c=3" =
      .ok (.select ["x"] (some "t")
        [.mk "and" [.mk "a" "=" (.prim (.num 1)), .mk "c" "=" (.prim (.num 3))],
         .mk "or" [.mk "b" "=" (.prim (.num 2))]]) := rfl

/-- C3: the WHERE loop used by `parseSelect` repeatedly parses one
condition and inspects the next token: the condition goes into the OR
bucket exactly when that token is a KEYWORD lowercasing to `or`, and into
the AND bucket in every other case (AND, any other keyword, or no
connector) — stated via the declarative `condsWithFlags` reading of the
token stream; afterwards (`mkWhere`, inlined at lines 339-350 of
`parseSelect`) the AND-group is emitted before the OR-group, each only if
its bucket is non-empty.  Connector keywords are consumed as separators
and appear in no `Cond` or `CondGroup` of the output. -/
theorem c3_where_grouping (pe : List Token → Except String (Cond × List Token))
    (fuel : Nat) (ts : List Token) (st : List (Cond × Bool)) (r : List Token)
    (h : condsWithFlags pe fuel ts = .ok (st, r)) :
    selectWhereLoop pe fuel ts [] [] = .ok (andOf st, orOf st, r) ∧
    mkWhere (andOf st) (orOf st) =
      (if 0 < (andOf st).length then [CondGroup.mk "and" (andOf st)] else []) ++
      (if 0 < (orOf st).length then [CondGroup.mk "or" (orOf st)] else []) := by
  refine ⟨?_, rfl⟩
  simpa using selectWhereLoop_eq pe fuel ts [] [] st r h

/-- C3, witness: on the token stream of `a=1 AND b=2 OR c=3` the loop
produces AND-bucket [a=1, c=3] and OR-bucket [b=2]. -/
theorem c3_witness :
    selectWhereLoop (parseExpression (parseSQLF 5)) 12
      [⟨.IDENTIFIER, "a"⟩, ⟨.OPERATOR, "="⟩, ⟨.NUMBER, "1"⟩, ⟨.KEYWORD, "AND"⟩,
       ⟨.IDENTIFIER, "b"⟩, ⟨.OPERATOR, "="⟩, ⟨.NUMBER, "2"⟩, ⟨.KEYWORD, "OR"⟩,
       ⟨.IDENTIFIER, "c"⟩, ⟨.OPERATOR, "="⟩, ⟨.NUMBER, "3"⟩] [] [] =
      .ok ([Cond.mk "a" "=" (.prim (.num 1)), Cond.mk "c" "=" (.prim (.num 3))],
           [Cond.mk "b" "=" (.prim (.num 2))], []) :=
  (c3_where_grouping (parseExpression (parseSQLF 5)) 12
    [⟨.IDENTIFIER, "a"⟩, ⟨.OPERATOR, "="⟩, ⟨.NUMBER, "1"⟩, ⟨.KEYWORD, "AND"⟩,
     ⟨.IDENTIFIER, "b"⟩, ⟨.OPERATOR, "="⟩, ⟨.NUMBER, "2"⟩, ⟨.KEYWORD, "OR"⟩,
     ⟨.IDENTIFIER, "c"⟩, ⟨.OPERATOR, "="⟩, ⟨.NUMBER, "3"⟩]
    [(Cond.mk "a" "=" (.prim (.num 1)), false),
     (Cond.mk "b" "=" (.prim (.num 2)), true),
     (Cond.mk "c" "=" (.prim (.num 3)), false)] [] rfl).1

/-- C4, counterexample: `UPDATE t SET a = "x" WHERE id = 1` does produce
`assignments == {a: "x"}`, but its `where` is NOT the structure a SELECT
would produce: `parseUpdate` pushes the parsed conditions onto a flat
array (no and/or bucketing, lines 375-391), so the result holds the bare
condition `{id, =, 1}` with no AND-ConditionGroup around it. -/
theorem c4_counterexample :
    parseSQL "UPDATE t SET a = \"x\" WHERE id = 1" =
      .ok (.update (some "t") [("a", .str "x")]
        [.mk "id" "=" (.prim (.num 1))]) := rfl

/-- C4, amended: the UPDATE parse yields `assignments = {a: "x"}` and a
flat one-element `where` list holding `{id, =, 1}`; the grouped shape the
claim describes is what a SELECT with the same WHERE text produces. -/
theorem c4_amended :
    parseSQL "UPDATE t SET a = \"x\" WHERE id = 1" =
      .ok (.update (some "t") [("a", .str "x")]
        [.mk "id" "=" (.prim (.num 1))]) ∧
    parseSQL "SELECT c FROM t WHERE id = 1" =
      .ok (.select ["c"] (some "t")
        [.mk "and" [.mk "id" "=" (.prim (.num 1))]]) :=
  ⟨rfl, rfl⟩

/-- C5: the IN-list collection loop returns the raw parenthesized value
sequence in order of first occurrence with duplicates removed
(`firstOccurrencesFrom []`), where `rawInList` is the same traversal
without the de-duplication. -/
theorem c5_in_list_dedup (fuel : Nat) (ts : List Token)
    (vs : List Prim) (r : List Token)
    (h : rawInList fuel ts = .ok (vs, r)) :
    inListLoop fuel ts [] = .ok (firstOccurrencesFrom [] vs, r) := by
  simpa using inListLoop_eq fuel ts [] vs r h

/-- C5, witness: on the token stream of `1, 2, 2, "x", "x")` the raw value
sequence is [1, 2, 2, "x", "x"] and the loop returns [1, 2, "x"]; and the
full parse of `SELECT a FROM t WHERE id IN (1, 2, 2, "x", "x")` carries
that de-duplicated list as the condition's right-hand side. -/
theorem c5_witness :
    inListLoop 12
      [⟨.NUMBER, "1"⟩, ⟨.COMMA, ","⟩, ⟨.NUMBER, "2"⟩, ⟨.COMMA, ","⟩,
       ⟨.NUMBER, "2"⟩, ⟨.COMMA, ","⟩, ⟨.STRING, "\"x\""⟩, ⟨.COMMA, ","⟩,
       ⟨.STRING, "\"x\""⟩, ⟨.PAREN, ")"⟩] [] =
      .ok ([.num 1, .num 2, .str "x"], [⟨.PAREN, ")"⟩]) ∧
    parseSQL "SELECT a FROM t WHERE id IN (1, 2, 2, \"x\", \"x\")" =
      .ok (.select ["a"] (some "t")
        [.mk "and" [.mk "id" "IN" (.vals [.num 1, .num 2, .str "x"])]]) :=
  ⟨c5_in_list_dedup 12 _ [.num 1, .num 2, .num 2, .str "x", .str "x"]
    [⟨.PAREN, ")"⟩] rfl, rfl⟩

/-- C6: when an IN condition's right-hand side is a SUBQUERY token,
`parseExpression` consumes the token, runs a fresh lexer+parser pipeline
(`recSQL`, i.e. `new SQLParser(...)`) on the token's inner text
(`slice(1,-1)`), and sets `right` to the one-element list holding the
fully-parsed nested Statement, leaving the following tokens untouched. -/
theorem c6_subquery (recSQL : String → Except String Stmt)
    (l op v : String) (rest : List Token) (s : Stmt)
    (hop : asciiUpper op = "IN")
    (hs : recSQL (strSlice v) = .ok s) :
    parseExpression recSQL
      (⟨.IDENTIFIER, l⟩ :: ⟨.OPERATOR, op⟩ :: ⟨.SUBQUERY, v⟩ :: rest) =
      .ok (.mk l op (.stmts [s]), rest) := by
  simp [parseExpression, parseIdentifier, parseOperator, eat, currentToken, hop, hs]

/-- C6, witness: `WHERE id IN (SELECT user_id FROM t2 WHERE age > 30)`
yields a one-element list containing the nested Select for `t2`, both at
the expression level and through the full parse. -/
theorem c6_witness :
    parseExpression (parseSQLF 5)
      [⟨.IDENTIFIER, "id"⟩, ⟨.OPERATOR, "IN"⟩,
       ⟨.SUBQUERY, "(SELECT user_id FROM t2 WHERE age > 30)"⟩] =
      .ok (.mk "id" "IN" (.stmts [.select ["user_id"] (some "t2")
        [.mk "and" [.mk "age" ">" (.prim (.num 30))]]]), []) ∧
    parseSQL "SELECT a FROM t WHERE id IN (SELECT user_id FROM t2 WHERE age > 30)" =
      .ok (.select ["a"] (some "t")
        [.mk "and" [.mk "id" "IN" (.stmts [.select ["user_id"] (some "t2")
          [.mk "and" [.mk "age" ">" (.prim (.num 30))]]])]]) :=
  ⟨c6_subquery (parseSQLF 5) "id" "IN"
    "(SELECT user_id FROM t2 WHERE age > 30)" []
    (.select ["user_id"] (some "t2")
      [.mk "and" [.mk "age" ">" (.prim (.num 30))]]) rfl rfl, rfl⟩

/-- C7: evaluation of the code at the failing input.  The lexer's operator
alternative matches `IN` with no word boundary and with priority over the
keyword alternative, so `INT` is split into OPERATOR `IN` plus IDENTIFIER
`T`; `parseCreateTable` then reads dataType null for column `a`, fails to
find the comma, and stops — the claimed
`columns: [{a, INT}, {b, VARCHAR}]` is not produced. -/
theorem c7_eval :
    parseSQL "CREATE TABLE t (a INT, b VARCHAR)" =
      .ok (.createTable (some "t") [⟨some "a", none⟩]) := rfl

/-- C8, counterexample: a trailing semicolon is not always ignored.
`SELECT a FROM t WHERE a=1` parses, but with a trailing `;` the WHERE loop
(whose stop condition only checks for KEYWORD tokens) re-enters the
expression parser on the SEMICOLON token and throws `Expected identifier`. -/
theorem c8_counterexample :
    parseSQL "SELECT a FROM t WHERE a=1" =
      .ok (.select ["a"] (some "t") [.mk "and" [.mk "a" "=" (.prim (.num 1))]]) ∧
    parseSQL "SELECT a FROM t WHERE a=1;" = .error "Expected identifier" :=
  ⟨rfl, rfl⟩

/-- C8, amended: the trailing semicolon is tokenized as a SEMICOLON token
and ignored when the statement does not end in a SELECT/UPDATE WHERE
clause (e.g. a SELECT without WHERE, or DELETE whose WHERE parses exactly
one condition and stops) — but after a SELECT/UPDATE WHERE clause the
dangling SEMICOLON makes the where-loop call the expression parser again,
which fails with `Expected identifier`. -/
theorem c8_amended :
    tokenize "SELECT a FROM t;" =
      [⟨.KEYWORD, "SELECT"⟩, ⟨.IDENTIFIER, "a"⟩, ⟨.KEYWORD, "FROM"⟩,
       ⟨.IDENTIFIER, "t"⟩, ⟨.SEMICOLON, ";"⟩] ∧
    parseSQL "SELECT a FROM t" = .ok (.select ["a"] (some "t") []) ∧
    parseSQL "SELECT a FROM t;" = .ok (.select ["a"] (some "t") []) ∧
    parseSQL "DELETE FROM t WHERE id = 5" =
      .ok (.delete (some "t") (some (.mk "id" "=" (.prim (.num 5))))) ∧
    parseSQL "DELETE FROM t WHERE id = 5;" =
      .ok (.delete (some "t") (some (.mk "id" "=" (.prim (.num 5))))) ∧
    parseSQL "SELECT a FROM t WHERE a=1;" = .error "Expected identifier" :=
  ⟨rfl, rfl, rfl, rfl, rfl, rfl⟩

/-- C9, counterexample: an unrecognized character is dropped, not emitted
as an Identifier token: no alternative of the lexer regex matches `@`, so
`exec` skips it and `tokenize "@"` is empty. -/
theorem c9_counterexample : tokenize "@" = [] := rfl

/-- C9, amended: `tokenize` is a pure, deterministic, total function — in
particular it emits at most one token per input character and never fails —
and runs of word characters that match no earlier rule do fall back to
Identifier tokens; but characters matching NO alternative (such as `@`)
are silently skipped by the regex scan rather than becoming Identifier
tokens. -/
theorem c9_amended :
    (∀ s : String, (tokenize s).length ≤ s.length) ∧
    tokenize "a @ b" = [⟨.IDENTIFIER, "a"⟩, ⟨.IDENTIFIER, "b"⟩] ∧
    tokenize "@" = [] :=
  ⟨fun s => tokenizeAux_length_le s.length none s.toList, rfl, rfl⟩

/-- C10: whenever tokenization yields no tokens (for instance the empty
string or whitespace-only input), `parse()` fails on its very first
`currentToken()` access — `tokens[0]` is undefined and reading `.type`
throws — before any statement parser is dispatched, so no Statement is
returned. -/
theorem c10_empty_tokens (s : String) (h : tokenize s = []) :
    parseSQL s = .error typeErrorMsg := by
  simp [parseSQL, parseSQLF, parse, h, currentToken]

/-- C10, witness: the empty string and a whitespace-only string tokenize
to nothing and fail with the modelled TypeError. -/
theorem c10_witness :
    tokenize "" = [] ∧ parseSQL "" = .error typeErrorMsg ∧
    parseSQL " " = .error typeErrorMsg :=
  ⟨rfl, c10_empty_tokens "" rfl, c10_empty_tokens " " rfl⟩

end SQLParser
